import Mathlib

/-!
Verification of the slashclaw identity and trust subsystem.

This file gives a shallow embedding of the Go auth subsystem:

* `internal/store` record types and the SQLite queries that back them
  (challenges, tokens, accounts, account keys), with timestamps as `Nat`
  and the SQL `UNIQUE` / `PRIMARY KEY` constraints made explicit as guards
  on the insert operations;
* the `internal/auth` service (`CreateChallenge`, `VerifyAndCreateToken`,
  `ValidateToken`) including the `verifySignature` dispatch and the
  base64 decoding layer of `verifyEd25519` / `verifyRSAPSS` /
  `verifyRSASHA256`; the raw cryptographic primitives (the curve and RSA
  arithmetic, SHA-256) are parameters of the model (`Crypto`), since the
  service logic never inspects their internals;
* the HTTP handlers `CreateAccount`, `AddAccountKey`, `DeleteAccountKey`
  from `internal/api`, with results carrying the exact status code and
  message passed to `writeError` / `writeJSON`.

Challenge and token strings issued by the Go code are URL-safe base64
(ASCII), so `Char.toNat` on the string's characters agrees with Go's
`[]byte(message)` UTF-8 bytes for every string the system produces.
-/

namespace Slashclaw

/-- Equality of fallible results is decidable componentwise. -/
instance {ε α : Type} [DecidableEq ε] [DecidableEq α] : DecidableEq (Except ε α) :=
  fun x y =>
    match x, y with
    | .error a, .error b =>
      if h : a = b then .isTrue (congrArg Except.error h)
      else .isFalse (fun he => h (Except.error.inj he))
    | .ok a, .ok b =>
      if h : a = b then .isTrue (congrArg Except.ok h)
      else .isFalse (fun he => h (Except.ok.inj he))
    | .error _, .ok _ => .isFalse (fun he => Except.noConfusion he)
    | .ok _, .error _ => .isFalse (fun he => Except.noConfusion he)

/-- Pairwise properties over a decidable relation are decidable. -/
instance decPairwiseRel {α : Type} (R : α → α → Prop) [DecidableRel R] :
    (l : List α) → Decidable (l.Pairwise R)
  | [] => .isTrue List.Pairwise.nil
  | a :: l =>
    haveI : Decidable (l.Pairwise R) := decPairwiseRel R l
    decidable_of_iff ((∀ b ∈ l, R a b) ∧ l.Pairwise R) List.pairwise_cons.symm

/-! ## Data model (`internal/store/store.go`) -/

/-- Go `store.Challenge`: `{id, agent_id, algorithm, challenge, expires_at}`. -/
structure Challenge where
  id : String
  agentID : String
  algorithm : String
  challenge : String
  expiresAt : Nat
deriving DecidableEq, Repr

/-- Go `store.Token`: `{id, account_id, key_id, agent_id, token, expires_at}`.
`accountID = ""` models the SQL NULL produced by `nullString`. -/
structure Token where
  id : String
  accountID : String
  keyID : String
  agentID : String
  token : String
  expiresAt : Nat
deriving DecidableEq, Repr

/-- Go `store.Account`. -/
structure Account where
  id : String
  displayName : String
  bio : String
  homepageURL : String
  createdAt : Nat
deriving DecidableEq, Repr

/-- Go `store.AccountKey`; `revokedAt = none` is an active key. -/
structure AccountKey where
  id : String
  accountID : String
  algorithm : String
  publicKey : String
  createdAt : Nat
  revokedAt : Option Nat
deriving DecidableEq, Repr

/-- The persistent state: the four auth tables of `sqlite.go`. -/
structure DB where
  accounts : List Account
  accountKeys : List AccountKey
  challenges : List Challenge
  tokens : List Token
deriving DecidableEq, Repr

def emptyDB : DB := ⟨[], [], [], []⟩

/-- Errors of the `internal/auth` package plus the opaque storage error.
`notImplemented` is the `fmt.Errorf("secp256k1 not yet implemented")`
value returned by the secp256k1 branch of `verifySignature`. -/
inductive AuthErr where
  | invalidAlgorithm
  | invalidPublicKey
  | invalidSignature
  | challengeExpired
  | challengeNotFound
  | notImplemented
  | storage
deriving DecidableEq, Repr

/-! ## Standard base64 (`encoding/base64` StdEncoding, as used by the Go code) -/

/-- Value of a character in the standard base64 alphabet. -/
def b64Char (ch : Char) : Option Nat :=
  if 'A' ≤ ch ∧ ch ≤ 'Z' then some (ch.toNat - 65)
  else if 'a' ≤ ch ∧ ch ≤ 'z' then some (ch.toNat - 97 + 26)
  else if '0' ≤ ch ∧ ch ≤ '9' then some (ch.toNat - 48 + 52)
  else if ch = '+' then some 62
  else if ch = '/' then some 63
  else none

/-- Decode a list of base64 characters in 4-character quanta, with `=`
padding allowed only at the end (the non-strict Go decoder does not check
trailing bits). Any other shape is a decode error. -/
def b64Quanta : List Char → Option (List Nat)
  | [] => some []
  | a :: b :: c :: d :: rest =>
    match b64Char a, b64Char b with
    | some va, some vb =>
      if c = '=' then
        if d = '=' ∧ rest = [] then some [va * 4 + vb / 16]
        else none
      else
        match b64Char c with
        | some vc =>
          if d = '=' then
            if rest = [] then some [va * 4 + vb / 16, (vb % 16) * 16 + vc / 4]
            else none
          else
            match b64Char d with
            | some vd =>
              (b64Quanta rest).map
                (fun tl => (va * 4 + vb / 16) :: ((vb % 16) * 16 + vc / 4) ::
                           ((vc % 4) * 64 + vd) :: tl)
            | none => none
        | none => none
    | _, _ => none
  | _ => none

/-- Go `base64.StdEncoding.DecodeString`: `\r` and `\n` are ignored, the rest
must be well-formed padded quanta. -/
def base64StdDecode (s : String) : Option (List Nat) :=
  b64Quanta (s.data.filter (fun ch => ch ≠ '\r' ∧ ch ≠ '\n'))

/-- Bytes of a challenge string (`[]byte(message)` in Go; ASCII in this
system, where `Char.toNat` equals the UTF-8 byte). -/
def strBytes (s : String) : List Nat :=
  s.data.map (fun ch => ch.toNat)

/-! ## Signature verifier (`internal/auth/auth.go`) -/

def AlgEd25519 : String := "ed25519"
def AlgSecp256k1 : String := "secp256k1"
def AlgRSAPSS : String := "rsa-pss"
def AlgRSASHA256 : String := "rsa-sha256"

/-- Go `isValidAlgorithm`. -/
def isValidAlgorithm (alg : String) : Bool :=
  alg == AlgEd25519 || alg == AlgSecp256k1 || alg == AlgRSAPSS || alg == AlgRSASHA256

/-- The raw cryptographic primitives used by the verifier, abstracted:
`K` is the type of parsed RSA public keys (`*rsa.PublicKey`). The
decoding and dispatch layers around them are embedded concretely. -/
structure Crypto (K : Type) where
  ed25519Verify : List Nat → List Nat → List Nat → Bool
  parseRSAPublicKey : String → Option K
  sha256 : List Nat → List Nat
  rsaPSSVerify : K → List Nat → List Nat → Bool
  rsaPKCS1Verify : K → List Nat → List Nat → Bool

variable {K : Type}

/-- Go `verifyEd25519`: base64 public key (must be 32 bytes), base64
signature; a bad key decodes to `ErrInvalidPublicKey`, a bad signature
encoding to `ErrInvalidSignature`. -/
def verifyEd25519 (c : Crypto K) (publicKeyStr message signatureStr : String) :
    Except AuthErr Bool :=
  match base64StdDecode publicKeyStr with
  | none => .error .invalidPublicKey
  | some publicKeyBytes =>
    if publicKeyBytes.length ≠ 32 then .error .invalidPublicKey
    else
      match base64StdDecode signatureStr with
      | none => .error .invalidSignature
      | some signatureBytes =>
        .ok (c.ed25519Verify publicKeyBytes (strBytes message) signatureBytes)

/-- Go `verifyRSAPSS`: parse key (PEM or base64 DER, abstracted), decode the
base64 signature, verify PSS over the SHA-256 digest. -/
def verifyRSAPSS (c : Crypto K) (publicKeyStr message signatureStr : String) :
    Except AuthErr Bool :=
  match c.parseRSAPublicKey publicKeyStr with
  | none => .error .invalidPublicKey
  | some key =>
    match base64StdDecode signatureStr with
    | none => .error .invalidSignature
    | some signatureBytes =>
      .ok (c.rsaPSSVerify key (c.sha256 (strBytes message)) signatureBytes)

/-- Go `verifyRSASHA256`: as `verifyRSAPSS` with PKCS#1 v1.5. -/
def verifyRSASHA256 (c : Crypto K) (publicKeyStr message signatureStr : String) :
    Except AuthErr Bool :=
  match c.parseRSAPublicKey publicKeyStr with
  | none => .error .invalidPublicKey
  | some key =>
    match base64StdDecode signatureStr with
    | none => .error .invalidSignature
    | some signatureBytes =>
      .ok (c.rsaPKCS1Verify key (c.sha256 (strBytes message)) signatureBytes)

/-- Go `verifySignature`: dispatch on the algorithm name. The secp256k1
branch of the Go code is `return false, fmt.Errorf("secp256k1 not yet
implemented")`. -/
def verifySignature (c : Crypto K) (alg publicKeyStr message signatureStr : String) :
    Except AuthErr Bool :=
  if alg == AlgEd25519 then verifyEd25519 c publicKeyStr message signatureStr
  else if alg == AlgRSAPSS then verifyRSAPSS c publicKeyStr message signatureStr
  else if alg == AlgRSASHA256 then verifyRSASHA256 c publicKeyStr message signatureStr
  else if alg == AlgSecp256k1 then .error .notImplemented
  else .error .invalidAlgorithm

/-! ## Store operations (`internal/store/sqlite.go`)

Each SQL statement is embedded over the list-of-rows state. `now` stands
for `datetime('now')`; the SQL comparisons `expires_at > datetime('now')`
become `now < expiresAt`. Inserts model the `PRIMARY KEY` and `UNIQUE`
constraints as explicit guards failing with the opaque storage error. -/

/-- Go `GetChallenge`: `WHERE challenge = ? AND expires_at > datetime('now')`. -/
def getChallenge (db : DB) (now : Nat) (challengeStr : String) : Option Challenge :=
  db.challenges.find? (fun c => c.challenge == challengeStr && decide (now < c.expiresAt))

/-- Go `CreateChallenge` insert: `PRIMARY KEY (id)`, `challenge ... UNIQUE`. -/
def createChallengeRow (db : DB) (c : Challenge) : Except AuthErr DB :=
  if db.challenges.any (fun c2 => c2.id == c.id || c2.challenge == c.challenge) then
    .error .storage
  else .ok { db with challenges := db.challenges ++ [c] }

/-- Go `DeleteChallenge`: `DELETE FROM challenges WHERE id = ?`. -/
def deleteChallenge (db : DB) (id : String) : DB :=
  { db with challenges := db.challenges.filter (fun c => c.id != id) }

/-- Go `GetToken`: `WHERE token = ? AND expires_at > datetime('now')`;
`sql.ErrNoRows` becomes `none`, not an error. -/
def getToken (db : DB) (now : Nat) (tokenStr : String) : Option Token :=
  db.tokens.find? (fun t => t.token == tokenStr && decide (now < t.expiresAt))

/-- Go `CreateToken` insert: `PRIMARY KEY (id)`, `token ... UNIQUE`. -/
def createTokenRow (db : DB) (t : Token) : Except AuthErr DB :=
  if db.tokens.any (fun t2 => t2.id == t.id || t2.token == t.token) then
    .error .storage
  else .ok { db with tokens := db.tokens ++ [t] }

/-- Go `GetAccountKey`: lookup by id, revoked rows included. -/
def getAccountKey (db : DB) (id : String) : Option AccountKey :=
  db.accountKeys.find? (fun k => k.id == id)

/-- The `GetAccountKeyByPublicKey` predicate over the key table:
`WHERE algorithm = ? AND public_key = ? AND revoked_at IS NULL`. -/
def findActiveKey (keys : List AccountKey) (alg publicKey : String) : Option AccountKey :=
  keys.find? (fun k => k.algorithm == alg && k.publicKey == publicKey && k.revokedAt.isNone)

/-- Go `GetAccountKeyByPublicKey`. -/
def getAccountKeyByPublicKey (db : DB) (alg publicKey : String) : Option AccountKey :=
  findActiveKey db.accountKeys alg publicKey

/-- Go `CreateAccountKey` insert: `PRIMARY KEY (id)` and
`UNIQUE(algorithm, public_key)` — the uniqueness constraint counts
revoked rows too. -/
def createAccountKeyRow (db : DB) (k : AccountKey) : Except AuthErr DB :=
  if db.accountKeys.any (fun k2 =>
      k2.id == k.id || (k2.algorithm == k.algorithm && k2.publicKey == k.publicKey)) then
    .error .storage
  else .ok { db with accountKeys := db.accountKeys ++ [k] }

/-- Go `RevokeAccountKey`: `UPDATE account_keys SET revoked_at = ? WHERE id = ?`. -/
def revokeAccountKey (db : DB) (now : Nat) (id : String) : DB :=
  let upd : AccountKey → AccountKey :=
    fun k => if k.id == id then { k with revokedAt := some now } else k
  { db with accountKeys := db.accountKeys.map upd }

/-- Go `CreateAccount` insert: `PRIMARY KEY (id)`. -/
def createAccountRow (db : DB) (a : Account) : Except AuthErr DB :=
  if db.accounts.any (fun a2 => a2.id == a.id) then .error .storage
  else .ok { db with accounts := db.accounts ++ [a] }

/-- Go `GetAccount`. -/
def getAccount (db : DB) (id : String) : Option Account :=
  db.accounts.find? (fun a => a.id == id)

/-! ## Auth service (`internal/auth/auth.go`)

Randomness (UUIDs and 32-byte secrets) is supplied by the caller as a
`Fresh` value, mirroring `uuid.New()` / `rand.Read`. -/

/-- A draw of randomness: a UUID for the row id and the base64url-encoded
random secret (challenge or token string). -/
structure Fresh where
  id : String
  secret : String
deriving DecidableEq, Repr

/-- Go `Service.CreateChallenge`: reject unknown algorithms, then insert
`{uuid, agentID, alg, random secret, now + challengeTTL}`. -/
def createChallenge (now challengeTTL : Nat) (fr : Fresh) (agentID alg : String)
    (db : DB) : Except AuthErr Challenge × DB :=
  if !isValidAlgorithm alg then (.error .invalidAlgorithm, db)
  else
    match createChallengeRow db ⟨fr.id, agentID, alg, fr.secret, now + challengeTTL⟩ with
    | .error e => (.error e, db)
    | .ok db1 => (.ok ⟨fr.id, agentID, alg, fr.secret, now + challengeTTL⟩, db1)

/-- The token record built by `VerifyAndCreateToken`: bound to the
matching active account key when there is one, marked unregistered
otherwise. -/
def tokenFor (fr : Fresh) (agentID publicKey : String) (expiry : Nat)
    (accountKey : Option AccountKey) : Token :=
  { id := fr.id,
    accountID := (match accountKey with | some k => k.accountID | none => ""),
    keyID := (match accountKey with
              | some k => k.id
              | none => "unregistered:" ++ publicKey.take 16),
    agentID := agentID, token := fr.secret, expiresAt := expiry }

/-- Go `Service.VerifyAndCreateToken`: look up the challenge (the lookup
already excludes expired rows), re-check expiry (`time.Now().After`),
check agent/algorithm, verify the signature, delete the challenge, bind
to an active account key if one matches, insert the token. -/
def verifyAndCreateToken (c : Crypto K) (now tokenTTL : Nat) (fr : Fresh)
    (agentID alg publicKey challengeStr signature : String) (db : DB) :
    Except AuthErr Token × DB :=
  match getChallenge db now challengeStr with
  | none => (.error .challengeNotFound, db)
  | some ch =>
    if decide (ch.expiresAt < now) then (.error .challengeExpired, db)
    else if ch.agentID != agentID || ch.algorithm != alg then
      (.error .challengeNotFound, db)
    else
      match verifySignature c alg publicKey challengeStr signature with
      | .error e => (.error e, db)
      | .ok false => (.error .invalidSignature, db)
      | .ok true =>
        match createTokenRow (deleteChallenge db ch.id)
            (tokenFor fr agentID publicKey (now + tokenTTL)
              (getAccountKeyByPublicKey (deleteChallenge db ch.id) alg publicKey)) with
        | .error e => (.error e, deleteChallenge db ch.id)
        | .ok db2 =>
          (.ok (tokenFor fr agentID publicKey (now + tokenTTL)
              (getAccountKeyByPublicKey (deleteChallenge db ch.id) alg publicKey)), db2)

/-- Go `Service.ValidateToken`: a pure lookup; unknown and expired tokens
both come back as `none`, never as an error. -/
def validateToken (db : DB) (now : Nat) (tokenStr : String) : Option Token :=
  getToken db now tokenStr

/-! ## HTTP handlers (`internal/api`)

A handler outcome is either a success body (`writeJSON`) or the exact
status code and message handed to `writeError`. -/

/-- Result of an account / key management handler. -/
inductive ApiResult where
  | createdAccount (accountID keyID : String)
  | addedKey (keyID : String)
  | revokedOk
  | apiError (status : Nat) (msg : String)
deriving DecidableEq, Repr

/-- Go `Handler.validateToken`: empty bearer string short-circuits to `nil`. -/
def handlerValidateToken (db : DB) (now : Nat) (bearer : String) : Option Token :=
  if bearer == "" then none else validateToken db now bearer

/-- Error mapping of the `VerifyAndCreateToken` call in the
`CreateAccount` handler (same switch as the `VerifyChallenge` endpoint). -/
def mapVerifyErrCreate : AuthErr → ApiResult
  | .invalidAlgorithm => .apiError 400 "invalid algorithm"
  | .invalidPublicKey => .apiError 400 "invalid public key format"
  | .invalidSignature => .apiError 401 "invalid signature"
  | .challengeNotFound => .apiError 400 "challenge expired or not found"
  | .challengeExpired => .apiError 400 "challenge expired or not found"
  | _ => .apiError 500 "verification failed"

/-- Request body of `POST /api/accounts`. -/
structure CreateAccountReq where
  displayName : String
  bio : String
  homepageURL : String
  publicKey : String
  algorithm : String
  signature : String
  challenge : String
deriving DecidableEq, Repr

/-- Body of `Handler.CreateAccount` after the agent id is resolved:
verify challenge + signature, reject an already-registered active key
with 409, then insert the account row and its first key row — two
separate inserts with no transaction and no compensating delete. -/
def createAccountCore (c : Crypto K) (now tokenTTL : Nat) (frTok : Fresh)
    (newAccountID newKeyID agentID : String) (req : CreateAccountReq) (db : DB) :
    ApiResult × DB :=
  match verifyAndCreateToken c now tokenTTL frTok agentID req.algorithm
      req.publicKey req.challenge req.signature db with
  | (.error e, db1) => (mapVerifyErrCreate e, db1)
  | (.ok _, db1) =>
    match getAccountKeyByPublicKey db1 req.algorithm req.publicKey with
    | some _ => (.apiError 409 "public key is already registered to an account", db1)
    | none =>
      match createAccountRow db1
          { id := newAccountID, displayName := req.displayName, bio := req.bio,
            homepageURL := req.homepageURL, createdAt := now } with
      | .error _ => (.apiError 500 "failed to create account", db1)
      | .ok db2 =>
        match createAccountKeyRow db2
            { id := newKeyID, accountID := newAccountID, algorithm := req.algorithm,
              publicKey := req.publicKey, createdAt := now, revokedAt := none } with
        | .error _ => (.apiError 500 "failed to create account key", db2)
        | .ok db3 => (.createdAccount newAccountID newKeyID, db3)

/-- Go `Handler.CreateAccount` (`POST /api/accounts`): validate the body,
fall back to the display name when no `X-Agent-Id` header is present,
then run the verification-and-creation sequence. -/
def createAccountHandler (c : Crypto K) (now tokenTTL : Nat) (frTok : Fresh)
    (newAccountID newKeyID : String) (agentHeader : String)
    (req : CreateAccountReq) (db : DB) : ApiResult × DB :=
  if req.displayName == "" then
    (.apiError 400 "display_name is required", db)
  else if req.publicKey == "" || req.algorithm == "" || req.signature == "" ||
      req.challenge == "" then
    (.apiError 400 "public_key, alg, signature, and challenge are required", db)
  else
    createAccountCore c now tokenTTL frTok newAccountID newKeyID
      (if agentHeader != "" then agentHeader else req.displayName) req db

/-- Request body of `POST /api/accounts/{id}/keys`. -/
structure AddKeyReq where
  publicKey : String
  algorithm : String
  signature : String
  challenge : String
deriving DecidableEq, Repr

/-- Go `Handler.AddAccountKey` (`POST /api/accounts/{id}/keys`): account
must exist, bearer token must be valid and own the account, the new key
must pass fresh verification, and an already-registered active key is a
409. -/
def addKeyHandler (c : Crypto K) (now tokenTTL : Nat) (frTok : Fresh)
    (newKeyID : String) (bearer accountID : String) (req : AddKeyReq)
    (db : DB) : ApiResult × DB :=
  if accountID == "" then (.apiError 400 "account id required", db)
  else
    match getAccount db accountID with
    | none => (.apiError 404 "account not found", db)
    | some _ =>
      match handlerValidateToken db now bearer with
      | none => (.apiError 401 "authentication required", db)
      | some tok =>
        if tok.accountID != accountID then
          (.apiError 403 "not authorized to modify this account", db)
        else if req.publicKey == "" || req.algorithm == "" || req.signature == "" ||
            req.challenge == "" then
          (.apiError 400 "public_key, alg, signature, and challenge are required", db)
        else
          match verifyAndCreateToken c now tokenTTL frTok tok.agentID req.algorithm
              req.publicKey req.challenge req.signature db with
          | (.error e, db1) =>
            if e == .invalidSignature then
              (.apiError 401 "invalid signature for new key", db1)
            else (.apiError 400 "verification failed", db1)
          | (.ok _, db1) =>
            match getAccountKeyByPublicKey db1 req.algorithm req.publicKey with
            | some _ => (.apiError 409 "public key is already registered", db1)
            | none =>
              match createAccountKeyRow db1
                  { id := newKeyID, accountID := accountID, algorithm := req.algorithm,
                    publicKey := req.publicKey, createdAt := now, revokedAt := none } with
              | .error _ => (.apiError 500 "failed to create account key", db1)
              | .ok db2 => (.addedKey newKeyID, db2)

/-- Go `Handler.DeleteAccountKey` (`DELETE /api/accounts/{id}/keys/{keyId}`):
ownership checks, then the self-revocation guard
(`key.ID == token.KeyID` → 400), then `RevokeAccountKey`. -/
def deleteKeyHandler (now : Nat) (bearer accountID keyID : String) (db : DB) :
    ApiResult × DB :=
  if accountID == "" || keyID == "" then
    (.apiError 400 "account id and key id required", db)
  else
    match handlerValidateToken db now bearer with
    | none => (.apiError 401 "authentication required", db)
    | some tok =>
      if tok.accountID != accountID then
        (.apiError 403 "not authorized to modify this account", db)
      else
        match getAccountKey db keyID with
        | none => (.apiError 404 "key not found", db)
        | some key =>
          if key.accountID != accountID then
            (.apiError 403 "key does not belong to this account", db)
          else if key.id == tok.keyID then
            (.apiError 400 "cannot revoke the key currently in use", db)
          else (.revokedOk, revokeAccountKey db now keyID)

/-! ## Operation sequences over the key registry -/

/-- One request against the subsystem, carrying its own clock reading and
randomness, for stating state invariants over arbitrary request
sequences. -/
inductive Op where
  | createAcct (now tokenTTL : Nat) (frTok : Fresh) (newAccountID newKeyID : String)
      (agentHeader : String) (req : CreateAccountReq)
  | addKey (now tokenTTL : Nat) (frTok : Fresh) (newKeyID : String)
      (bearer accountID : String) (req : AddKeyReq)
  | revokeKey (now : Nat) (bearer accountID keyID : String)
  | verifyTok (now tokenTTL : Nat) (fr : Fresh)
      (agentID alg publicKey challengeStr signature : String)

/-- State transition of one request (the response is discarded). -/
def execOp (c : Crypto K) : Op → DB → DB
  | .createAcct now ttl frTok accID keyID hdr req, db =>
    (createAccountHandler c now ttl frTok accID keyID hdr req db).2
  | .addKey now ttl frTok keyID bearer accID req, db =>
    (addKeyHandler c now ttl frTok keyID bearer accID req db).2
  | .revokeKey now bearer accID keyID, db =>
    (deleteKeyHandler now bearer accID keyID db).2
  | .verifyTok now ttl fr agentID alg pk chStr sig, db =>
    (verifyAndCreateToken c now ttl fr agentID alg pk chStr sig db).2

/-- Run a request sequence left to right. -/
def execOps (c : Crypto K) (ops : List Op) (db : DB) : DB :=
  ops.foldl (fun d op => execOp c op d) db

/-- No two active account keys share `(algorithm, public_key)`. -/
def ActiveUnique (keys : List AccountKey) : Prop :=
  keys.Pairwise (fun k1 k2 => k1.revokedAt = none → k2.revokedAt = none →
    ¬(k1.algorithm = k2.algorithm ∧ k1.publicKey = k2.publicKey))

instance (keys : List AccountKey) : Decidable (ActiveUnique keys) :=
  decPairwiseRel _ keys

/-! ## Concrete instances used to exercise the model -/

/-- An oracle whose raw primitives accept everything: exercises the
decoding and state-machine layers on their success paths. -/
def cryptoTrue : Crypto Unit :=
  { ed25519Verify := fun _ _ _ => true,
    parseRSAPublicKey := fun _ => some (),
    sha256 := fun x => x,
    rsaPSSVerify := fun _ _ _ => true,
    rsaPKCS1Verify := fun _ _ _ => true }

/-- An oracle whose raw primitives reject everything: a well-formed but
cryptographically wrong signature. -/
def cryptoFalse : Crypto Unit :=
  { ed25519Verify := fun _ _ _ => false,
    parseRSAPublicKey := fun _ => some (),
    sha256 := fun x => x,
    rsaPSSVerify := fun _ _ _ => false,
    rsaPKCS1Verify := fun _ _ _ => false }

/-- Standard base64 of 32 zero bytes: a well-formed ed25519 public key
encoding. -/
def pkEx : String := "AAAAAAAAAAAAAAAAAAAAAAAAAAAAAAAAAAAAAAAAAAA="

/-! ## Helper lemmas about the store operations -/

theorem any_eq_false_forall {α : Type} {p : α → Bool} {l : List α}
    (h : l.any p = false) : ∀ x ∈ l, p x = false := by
  intro x hx
  cases hpx : p x
  · rfl
  · have := List.any_eq_true.mpr ⟨x, hx, hpx⟩
    rw [h] at this
    cases this

/-- A key whose id is not the revocation target survives
`RevokeAccountKey` unchanged. -/
theorem mem_revoke_of_id_ne {db : DB} {k : AccountKey} (hk : k ∈ db.accountKeys)
    {kid : String} (hne : k.id ≠ kid) (now : Nat) :
    k ∈ (revokeAccountKey db now kid).accountKeys := by
  have hid : (k.id == kid) = false := by
    simp only [beq_eq_false_iff_ne, ne_eq]
    exact hne
  have hupd : (if k.id == kid then { k with revokedAt := some now } else k) = k := by
    rw [hid]; rfl
  have := List.mem_map_of_mem
    (fun k2 => if k2.id == kid then { k2 with revokedAt := some now } else k2) hk
  simpa only [hupd] using this

theorem find?_append_of_none {α : Type} {p : α → Bool} {l1 l2 : List α}
    (h : l1.find? p = none) : (l1 ++ l2).find? p = l2.find? p := by
  induction l1 with
  | nil => rfl
  | cons a as ih =>
    by_cases hp : p a
    · rw [List.find?_cons_of_pos _ hp] at h; cases h
    · rw [List.find?_cons_of_neg _ hp] at h
      simpa [List.find?_cons_of_neg _ hp] using ih h

theorem createAccountRow_ok {db : DB} {a : Account} {db' : DB}
    (h : createAccountRow db a = .ok db') :
    db'.accountKeys = db.accountKeys ∧ db'.challenges = db.challenges ∧
      db'.tokens = db.tokens ∧ db'.accounts = db.accounts ++ [a] := by
  unfold createAccountRow at h
  split at h
  · cases h
  · cases h; exact ⟨rfl, rfl, rfl, rfl⟩

theorem createTokenRow_ok {db : DB} {t : Token} {db' : DB}
    (h : createTokenRow db t = .ok db') :
    db'.accountKeys = db.accountKeys ∧ db'.challenges = db.challenges ∧
      db'.accounts = db.accounts ∧ db'.tokens = db.tokens ++ [t] := by
  unfold createTokenRow at h
  split at h
  · cases h
  · cases h; exact ⟨rfl, rfl, rfl, rfl⟩

theorem createAccountKeyRow_ok {db : DB} {k : AccountKey} {db' : DB}
    (h : createAccountKeyRow db k = .ok db') :
    db.accountKeys.any (fun k2 =>
        k2.id == k.id || (k2.algorithm == k.algorithm && k2.publicKey == k.publicKey))
      = false ∧
    db'.accountKeys = db.accountKeys ++ [k] ∧ db'.challenges = db.challenges ∧
      db'.tokens = db.tokens ∧ db'.accounts = db.accounts := by
  unfold createAccountKeyRow at h
  split at h
  · cases h
  · rename_i hg
    cases h
    exact ⟨Bool.eq_false_iff.mpr hg, rfl, rfl, rfl, rfl⟩

theorem createChallengeRow_ok {db : DB} {c : Challenge} {db' : DB}
    (h : createChallengeRow db c = .ok db') :
    db.challenges.any (fun c2 => c2.id == c.id || c2.challenge == c.challenge) = false ∧
    db'.challenges = db.challenges ++ [c] ∧ db'.accountKeys = db.accountKeys ∧
      db'.tokens = db.tokens ∧ db'.accounts = db.accounts := by
  unfold createChallengeRow at h
  split at h
  · cases h
  · rename_i hg
    cases h
    exact ⟨Bool.eq_false_iff.mpr hg, rfl, rfl, rfl, rfl⟩

/-- Go `VerifyAndCreateToken` never touches the account or key tables. -/
theorem verifyAndCreateToken_frame (c : Crypto K) (now ttl : Nat) (fr : Fresh)
    (agentID alg pk chStr sig : String) (db : DB) :
    ((verifyAndCreateToken c now ttl fr agentID alg pk chStr sig db).2).accountKeys
        = db.accountKeys ∧
    ((verifyAndCreateToken c now ttl fr agentID alg pk chStr sig db).2).accounts
        = db.accounts := by
  unfold verifyAndCreateToken
  split
  · exact ⟨rfl, rfl⟩
  split
  · exact ⟨rfl, rfl⟩
  split
  · exact ⟨rfl, rfl⟩
  split
  · exact ⟨rfl, rfl⟩
  · exact ⟨rfl, rfl⟩
  · split
    · exact ⟨rfl, rfl⟩
    · rename_i heq
      have h2 := createTokenRow_ok heq
      exact ⟨h2.1, h2.2.2.1⟩

/-! ## Preservation of active-key uniqueness -/

/-- Inserting a key whose `(id, (algorithm, public_key))` passes the SQL
constraints keeps active keys unique. -/
theorem activeUnique_insert {keys : List AccountKey} {k : AccountKey}
    (h : ActiveUnique keys)
    (hg : keys.any (fun k2 =>
        k2.id == k.id || (k2.algorithm == k.algorithm && k2.publicKey == k.publicKey))
      = false) :
    ActiveUnique (keys ++ [k]) := by
  unfold ActiveUnique at h ⊢
  rw [List.pairwise_append]
  refine ⟨h, List.pairwise_singleton _ _, ?_⟩
  intro a ha b hb
  have hb' : b = k := by simpa using hb
  subst hb'
  intro _ _ habs
  have hA : (a.id == b.id || (a.algorithm == b.algorithm && a.publicKey == b.publicKey))
      = true := by
    simp only [Bool.or_eq_true, Bool.and_eq_true, beq_iff_eq]
    exact Or.inr ⟨habs.1, habs.2⟩
  have htrue : keys.any (fun k2 =>
      k2.id == b.id || (k2.algorithm == b.algorithm && k2.publicKey == b.publicKey))
      = true := List.any_eq_true.mpr ⟨a, ha, hA⟩
  rw [hg] at htrue
  cases htrue

/-- The `RevokeAccountKey` update never changes `(algorithm, public_key)`
and only ever moves a key from active to revoked. -/
theorem activeUnique_revoke {keys : List AccountKey} (h : ActiveUnique keys)
    (now : Nat) (id : String) :
    ActiveUnique (keys.map
      (fun k => if k.id == id then { k with revokedAt := some now } else k)) := by
  unfold ActiveUnique at h ⊢
  refine List.Pairwise.map _ ?_ h
  intro a b hab
  intro ha hb
  cases hxa : (a.id == id) <;> cases hxb : (b.id == id) <;>
    simp only [hxa, hxb, if_true, if_false, Bool.false_eq_true] at ha hb ⊢ <;>
    first
      | cases ha
      | cases hb
      | exact hab ha hb

/-- The `CreateAccount` verification-and-creation sequence preserves
uniqueness of active keys. -/
theorem createAccountCore_activeUnique (c : Crypto K) (now ttl : Nat) (frTok : Fresh)
    (accID keyID agentID : String) (req : CreateAccountReq) (db : DB)
    (h : ActiveUnique db.accountKeys) :
    ActiveUnique ((createAccountCore c now ttl frTok accID keyID agentID req db).2).accountKeys := by
  have hf := (verifyAndCreateToken_frame c now ttl frTok agentID req.algorithm
    req.publicKey req.challenge req.signature db).1
  unfold createAccountCore
  split
  · rename_i e db1 heq
    rw [heq] at hf
    show ActiveUnique db1.accountKeys
    rw [show db1.accountKeys = db.accountKeys from hf]
    exact h
  · rename_i tk db1 heq
    rw [heq] at hf
    have hf1 : db1.accountKeys = db.accountKeys := hf
    split
    · show ActiveUnique db1.accountKeys
      rw [hf1]; exact h
    · split
      · show ActiveUnique db1.accountKeys
        rw [hf1]; exact h
      · rename_i db2 hacct
        have h2 := createAccountRow_ok hacct
        split
        · show ActiveUnique db2.accountKeys
          rw [h2.1, hf1]; exact h
        · rename_i db3 hkey
          have h3 := createAccountKeyRow_ok hkey
          show ActiveUnique db3.accountKeys
          rw [h3.2.1, h2.1, hf1]
          refine activeUnique_insert h ?_
          have := h3.1
          rwa [h2.1, hf1] at this

/-- The `AddAccountKey` handler preserves uniqueness of active keys. -/
theorem addKeyHandler_activeUnique (c : Crypto K) (now ttl : Nat) (frTok : Fresh)
    (keyID bearer accID : String) (req : AddKeyReq) (db : DB)
    (h : ActiveUnique db.accountKeys) :
    ActiveUnique ((addKeyHandler c now ttl frTok keyID bearer accID req db).2).accountKeys := by
  unfold addKeyHandler
  split
  · exact h
  split
  · exact h
  · split
    · exact h
    · rename_i tok htok
      split
      · exact h
      split
      · exact h
      · have hf := (verifyAndCreateToken_frame c now ttl frTok tok.agentID req.algorithm
          req.publicKey req.challenge req.signature db).1
        split
        · rename_i e db1 heq
          rw [heq] at hf
          have hf1 : db1.accountKeys = db.accountKeys := hf
          split
          · show ActiveUnique db1.accountKeys
            rw [hf1]; exact h
          · show ActiveUnique db1.accountKeys
            rw [hf1]; exact h
        · rename_i tk db1 heq
          rw [heq] at hf
          have hf1 : db1.accountKeys = db.accountKeys := hf
          split
          · show ActiveUnique db1.accountKeys
            rw [hf1]; exact h
          · split
            · show ActiveUnique db1.accountKeys
              rw [hf1]; exact h
            · rename_i db2 hkey
              have h3 := createAccountKeyRow_ok hkey
              show ActiveUnique db2.accountKeys
              rw [h3.2.1, hf1]
              refine activeUnique_insert h ?_
              have := h3.1
              rwa [hf1] at this

/-- The `DeleteAccountKey` handler preserves uniqueness of active keys. -/
theorem deleteKeyHandler_activeUnique (now : Nat) (bearer accID keyID : String)
    (db : DB) (h : ActiveUnique db.accountKeys) :
    ActiveUnique ((deleteKeyHandler now bearer accID keyID db).2).accountKeys := by
  unfold deleteKeyHandler
  split
  · exact h
  split
  · exact h
  · split
    · exact h
    · split
      · exact h
      · split
        · exact h
        split
        · exact h
        · exact activeUnique_revoke h now keyID

/-- One request preserves uniqueness of active `(algorithm, public_key)`
pairs. -/
theorem execOp_activeUnique (c : Crypto K) (op : Op) (db : DB)
    (h : ActiveUnique db.accountKeys) : ActiveUnique ((execOp c op db).accountKeys) := by
  cases op with
  | createAcct now ttl frTok accID keyID hdr req =>
    show ActiveUnique ((createAccountHandler c now ttl frTok accID keyID hdr req db).2).accountKeys
    unfold createAccountHandler
    split
    · exact h
    split
    · exact h
    · exact createAccountCore_activeUnique c now ttl frTok accID keyID _ req db h
  | addKey now ttl frTok keyID bearer accID req =>
    exact addKeyHandler_activeUnique c now ttl frTok keyID bearer accID req db h
  | revokeKey now bearer accID keyID =>
    exact deleteKeyHandler_activeUnique now bearer accID keyID db h
  | verifyTok now ttl fr agentID alg pk chStr sig =>
    show ActiveUnique ((verifyAndCreateToken c now ttl fr agentID alg pk chStr sig db).2).accountKeys
    rw [(verifyAndCreateToken_frame c now ttl fr agentID alg pk chStr sig db).1]
    exact h

/-- A whole request sequence preserves the invariant. -/
theorem execOps_activeUnique (c : Crypto K) (ops : List Op) (db : DB)
    (h : ActiveUnique db.accountKeys) : ActiveUnique ((execOps c ops db).accountKeys) := by
  induction ops generalizing db with
  | nil => exact h
  | cons op ops ih => exact ih _ (execOp_activeUnique c op db h)

/-- A successful `VerifyAndCreateToken` run: challenge found and live,
identity fields match, signature verifies, token string fresh. The
resulting state has the consumed challenge deleted. -/
theorem verifyAndCreateToken_ok (c : Crypto K) (now ttl : Nat) (fr : Fresh)
    (agentID alg pk sig : String) (db : DB) (ch : Challenge)
    (hget : getChallenge db now ch.challenge = some ch)
    (hexp : ¬(ch.expiresAt < now))
    (hagent : ch.agentID = agentID) (halg : ch.algorithm = alg)
    (hsig : verifySignature c alg pk ch.challenge sig = .ok true)
    (hguard : (deleteChallenge db ch.id).tokens.any
        (fun t2 => t2.id == fr.id || t2.token == fr.secret) = false) :
    ∃ tok db2,
      verifyAndCreateToken c now ttl fr agentID alg pk ch.challenge sig db
        = (.ok tok, db2)
      ∧ db2.challenges = db.challenges.filter (fun c2 => c2.id != ch.id) := by
  have h1 : decide (ch.expiresAt < now) = false := decide_eq_false hexp
  have h2 : (ch.agentID != agentID || ch.algorithm != alg) = false := by
    simp [hagent, halg]
  have hguard2 : (deleteChallenge db ch.id).tokens.any
      (fun t2 => t2.id == (tokenFor fr agentID pk (now + ttl)
          (getAccountKeyByPublicKey (deleteChallenge db ch.id) alg pk)).id
        || t2.token == (tokenFor fr agentID pk (now + ttl)
          (getAccountKeyByPublicKey (deleteChallenge db ch.id) alg pk)).token)
      = false := hguard
  have hrow : createTokenRow (deleteChallenge db ch.id)
      (tokenFor fr agentID pk (now + ttl)
        (getAccountKeyByPublicKey (deleteChallenge db ch.id) alg pk))
      = .ok { deleteChallenge db ch.id with
          tokens := (deleteChallenge db ch.id).tokens
            ++ [tokenFor fr agentID pk (now + ttl)
                  (getAccountKeyByPublicKey (deleteChallenge db ch.id) alg pk)] } := by
    unfold createTokenRow
    rw [hguard2]
    rfl
  refine ⟨tokenFor fr agentID pk (now + ttl)
      (getAccountKeyByPublicKey (deleteChallenge db ch.id) alg pk),
    { deleteChallenge db ch.id with
        tokens := (deleteChallenge db ch.id).tokens
          ++ [tokenFor fr agentID pk (now + ttl)
                (getAccountKeyByPublicKey (deleteChallenge db ch.id) alg pk)] },
    ?_, rfl⟩
  simp only [verifyAndCreateToken, hget, h1, h2, hsig, Bool.false_eq_true, if_false,
    hrow]

/-! ## Example rows used by the witnesses -/

/-- A stored bearer token for account `acc1` via key `key1`. -/
def tokEx : Token := ⟨"tok-row-1", "acc1", "key1", "a1", "bearer-1", 100⟩

/-- A live challenge for agent `a1` under ed25519. -/
def chEx : Challenge := ⟨"ch-row-1", "a1", "ed25519", "challenge-1", 100⟩

/-! ## Claims -/

/-- Claim C3: `ValidateToken(token_string)` returns the stored token exactly
when a token row with that string exists and the current time is strictly
before its `expires_at`; for an unknown or expired token it returns
`none` rather than an error, and expiry is the only condition checked —
it is enforced inside the `GetToken` lookup predicate itself. Stated for
any state whose token strings are unique (the `token ... UNIQUE`
constraint). -/
theorem c3_validate_token_lookup (db : DB) (now : Nat) (s : String)
    (huniq : db.tokens.Pairwise (fun a b => a.token ≠ b.token)) :
    (∀ t, validateToken db now s = some t ↔
        t ∈ db.tokens ∧ t.token = s ∧ now < t.expiresAt)
    ∧ ((∀ t ∈ db.tokens, t.token ≠ s ∨ t.expiresAt ≤ now) →
        validateToken db now s = none) := by
  have hiff : ∀ t, validateToken db now s = some t ↔
      t ∈ db.tokens ∧ t.token = s ∧ now < t.expiresAt := by
    intro t
    constructor
    · intro h
      have h' : db.tokens.find?
          (fun t2 => t2.token == s && decide (now < t2.expiresAt)) = some t := h
      have hmem := List.mem_of_find?_eq_some h'
      have hp := List.find?_some h'
      simp only [Bool.and_eq_true, beq_iff_eq, decide_eq_true_eq] at hp
      exact ⟨hmem, hp.1, hp.2⟩
    · rintro ⟨hmem, hts, hlt⟩
      cases hfind : validateToken db now s with
      | none =>
        have h' : db.tokens.find?
            (fun t2 => t2.token == s && decide (now < t2.expiresAt)) = none := hfind
        have := List.find?_eq_none.mp h' t hmem
        simp [hts, hlt] at this
      | some t2 =>
        have h' : db.tokens.find?
            (fun t3 => t3.token == s && decide (now < t3.expiresAt)) = some t2 := hfind
        have hmem2 := List.mem_of_find?_eq_some h'
        have hp2 := List.find?_some h'
        simp only [Bool.and_eq_true, beq_iff_eq, decide_eq_true_eq] at hp2
        by_cases he : t2 = t
        · rw [he]
        · exfalso
          have hsym : Symmetric (fun a b : Token => a.token ≠ b.token) :=
            fun _ _ hab => fun hba => hab hba.symm
          have := huniq.forall hsym hmem2 hmem he
          exact this (hp2.1.trans hts.symm)
  refine ⟨hiff, fun hall => ?_⟩
  cases hfind : validateToken db now s with
  | none => rfl
  | some t =>
    have := (hiff t).mp hfind
    rcases hall t this.1 with hne | hle
    · exact absurd this.2.1 hne
    · omega

/-- Witness for C3: a live token is found, an expired one and an unknown
string are `none`. -/
theorem c3_validate_token_lookup_witness :
    validateToken ⟨[], [], [], [tokEx]⟩ 50 "bearer-1" = some tokEx ∧
    validateToken ⟨[], [], [], [tokEx]⟩ 100 "bearer-1" = none ∧
    validateToken ⟨[], [], [], [tokEx]⟩ 50 "unknown" = none := by
  refine ⟨?_, ?_, ?_⟩
  · exact ((c3_validate_token_lookup ⟨[], [], [], [tokEx]⟩ 50 "bearer-1"
      (by decide)).1 tokEx).mpr (by constructor; decide; decide)
  · exact (c3_validate_token_lookup ⟨[], [], [], [tokEx]⟩ 100 "bearer-1"
      (by decide)).2 (by decide)
  · exact (c3_validate_token_lookup ⟨[], [], [], [tokEx]⟩ 50 "unknown"
      (by decide)).2 (by decide)

/-- Claim C4: When every stored challenge carrying the submitted challenge
string has `expires_at` in the past, `VerifyAndCreateToken` cannot
succeed: the `GetChallenge` lookup already excludes expired rows, so the
call fails with `ChallengeNotFound` (one of the two failure outcomes the
claim allows) and leaves the state unchanged. -/
theorem c4_expired_challenge_rejected (c : Crypto K) (now ttl : Nat) (fr : Fresh)
    (agentID alg pk s sig : String) (db : DB)
    (hexp : ∀ ch ∈ db.challenges, ch.challenge = s → ch.expiresAt < now) :
    verifyAndCreateToken c now ttl fr agentID alg pk s sig db
      = (.error .challengeNotFound, db) := by
  have hnone : getChallenge db now s = none := by
    unfold getChallenge
    apply List.find?_eq_none.mpr
    intro ch hch
    intro hp
    simp only [Bool.and_eq_true, beq_iff_eq, decide_eq_true_eq] at hp
    have := hexp ch hch hp.1
    omega
  unfold verifyAndCreateToken
  rw [hnone]

/-- Witness for C4: a challenge that expired at 100, looked up at 200. -/
theorem c4_expired_challenge_rejected_witness :
    verifyAndCreateToken cryptoTrue 200 60 ⟨"t1", "tok-1"⟩ "a1" "ed25519" pkEx
        "challenge-1" "QQ==" ⟨[], [], [chEx], []⟩
      = (.error .challengeNotFound, ⟨[], [], [chEx], []⟩) :=
  c4_expired_challenge_rejected cryptoTrue 200 60 ⟨"t1", "tok-1"⟩ "a1" "ed25519"
    pkEx "challenge-1" "QQ==" ⟨[], [], [chEx], []⟩ (by decide)

/-- Claim C5, counterexample: The claim says secp256k1 verification checks
the signature against the EIP-191 `personal_sign` digest and accepts a
correct signature. In the code the secp256k1 branch of `verifySignature`
is a stub: even with raw primitives that accept everything, a secp256k1
request returns the `not yet implemented` error and never `ok`. -/
theorem c5_secp256k1_counterexample :
    verifySignature cryptoTrue AlgSecp256k1
        "02b4632d08485ff1df2db55b9dafd23347d1c47a457072a1e87be26896549a8737"
        "challenge-1" "QQ=="
      = .error .notImplemented ∧
    verifySignature cryptoTrue AlgSecp256k1
        "02b4632d08485ff1df2db55b9dafd23347d1c47a457072a1e87be26896549a8737"
        "challenge-1" "QQ=="
      ≠ .ok true := by
  exact ⟨rfl, by decide⟩

/-- Claim C5, amended: secp256k1 verification is not implemented: for
every public key, message and signature, `verifySignature` fails with the
`secp256k1 not yet implemented` error, so no secp256k1 signature is ever
accepted (the HTTP layer surfaces this as a 500). -/
theorem c5_secp256k1_not_implemented (c : Crypto K) (pk msg sig : String) :
    verifySignature c AlgSecp256k1 pk msg sig = .error .notImplemented := rfl

/-- Claim C6, counterexample: The claim says a malformed signature string
fails with `InvalidSignatureEncoding`, distinct from `InvalidSignature`.
In the code a signature that does not decode produces exactly
`ErrInvalidSignature` — the same error value the service returns for a
correctly-encoded but cryptographically wrong signature; no separate
encoding error exists in the error set. -/
theorem c6_encoding_error_counterexample :
    verifySignature cryptoFalse AlgEd25519 pkEx "challenge-1" "%%%"
      = .error .invalidSignature ∧
    (verifyAndCreateToken cryptoFalse 50 60 ⟨"t1", "tok-1"⟩ "a1" "ed25519" pkEx
        "challenge-1" "QQ==" ⟨[], [], [chEx], []⟩).1
      = .error .invalidSignature := by
  constructor
  · rfl
  · rfl

/-- Claim C6, amended: For every implemented algorithm, a signature string
that fails base64 decoding makes `verifySignature` fail with
`InvalidSignature` — the same error used for a correctly-encoded but
cryptographically wrong signature — provided the public key itself is
well-formed (a malformed key gets the distinct `InvalidPublicKey`). -/
theorem c6_malformed_signature_invalid_signature (c : Crypto K)
    (pk msg sig : String) (hsig : base64StdDecode sig = none) :
    (∀ pkBytes, base64StdDecode pk = some pkBytes → pkBytes.length = 32 →
        verifySignature c AlgEd25519 pk msg sig = .error .invalidSignature)
    ∧ (∀ k, c.parseRSAPublicKey pk = some k →
        verifySignature c AlgRSAPSS pk msg sig = .error .invalidSignature
        ∧ verifySignature c AlgRSASHA256 pk msg sig = .error .invalidSignature) := by
  constructor
  · intro pkBytes hpk hlen
    show verifyEd25519 c pk msg sig = .error .invalidSignature
    unfold verifyEd25519
    rw [hpk, hsig]
    simp [hlen]
  · intro k hk
    constructor
    · show verifyRSAPSS c pk msg sig = .error .invalidSignature
      unfold verifyRSAPSS
      rw [hk, hsig]
    · show verifyRSASHA256 c pk msg sig = .error .invalidSignature
      unfold verifyRSASHA256
      rw [hk, hsig]

/-- Witness for the amended C6, at concrete malformed signatures. -/
theorem c6_malformed_signature_invalid_signature_witness :
    verifySignature cryptoTrue AlgEd25519 pkEx "challenge-1" "%%%"
      = .error .invalidSignature ∧
    verifySignature cryptoTrue AlgRSAPSS "any-key" "challenge-1" "%%%"
      = .error .invalidSignature := by
  constructor
  · exact (c6_malformed_signature_invalid_signature cryptoTrue pkEx "challenge-1"
      "%%%" (by decide)).1 (List.replicate 32 0) (by decide) (by decide)
  · exact ((c6_malformed_signature_invalid_signature cryptoTrue "any-key" "challenge-1"
      "%%%" (by decide)).2 () rfl).1

/-- Claim C9: `RevokeAccountKey` is a frame-preserving update: accounts,
challenges and tokens are untouched (so `ValidateToken` is unaffected for
every time and token string — token validity never depends on key
revocation state); the revoked key no longer appears in
`GetAccountKeyByPublicKey` results; keys with other ids are unchanged;
and the targeted key changes only its `revoked_at` field. -/
theorem c9_revocation_frame (db : DB) (now : Nat) (kid : String) :
    (revokeAccountKey db now kid).accounts = db.accounts
    ∧ (revokeAccountKey db now kid).challenges = db.challenges
    ∧ (revokeAccountKey db now kid).tokens = db.tokens
    ∧ (∀ now2 s, validateToken (revokeAccountKey db now kid) now2 s
        = validateToken db now2 s)
    ∧ (∀ alg pk k, getAccountKeyByPublicKey (revokeAccountKey db now kid) alg pk
        = some k → k.id ≠ kid)
    ∧ (∀ k ∈ db.accountKeys, k.id ≠ kid →
        k ∈ (revokeAccountKey db now kid).accountKeys)
    ∧ (∀ k ∈ db.accountKeys, k.id = kid →
        ({ k with revokedAt := some now } : AccountKey)
          ∈ (revokeAccountKey db now kid).accountKeys) := by
  refine ⟨rfl, rfl, rfl, fun _ _ => rfl, ?_, ?_, ?_⟩
  · intro alg pk k h
    have h' : ((revokeAccountKey db now kid).accountKeys).find?
        (fun k2 => k2.algorithm == alg && k2.publicKey == pk && k2.revokedAt.isNone)
        = some k := h
    have hmem := List.mem_of_find?_eq_some h'
    have hp := List.find?_some h'
    simp only [Bool.and_eq_true, Option.isNone_iff_eq_none] at hp
    have hrev : k.revokedAt = none := hp.2
    rcases List.mem_map.mp hmem with ⟨k0, hk0, hup⟩
    cases hid : (k0.id == kid) with
    | true =>
      exfalso
      rw [show (if k0.id == kid then { k0 with revokedAt := some now } else k0)
          = { k0 with revokedAt := some now } by rw [hid]; rfl] at hup
      rw [← hup] at hrev
      cases hrev
    | false =>
      rw [show (if k0.id == kid then { k0 with revokedAt := some now } else k0) = k0
          by rw [hid]; rfl] at hup
      rw [← hup]
      intro hcontra
      rw [hcontra] at hid
      simp at hid
  · intro k hk hne
    have hid : (k.id == kid) = false := by
      simp only [beq_eq_false_iff_ne, ne_eq]
      exact hne
    have : (if k.id == kid then { k with revokedAt := some now } else k) = k := by
      rw [hid]; rfl
    rw [← this]
    exact List.mem_map_of_mem _ hk
  · intro k hk heq
    have hid : (k.id == kid) = true := by
      simp only [beq_iff_eq]
      exact heq
    have : (if k.id == kid then { k with revokedAt := some now } else k)
        = { k with revokedAt := some now } := by
      rw [hid]; rfl
    rw [← this]
    exact List.mem_map_of_mem _ hk

/-- Witness for C9, at a two-key state: the revoked key disappears from
the active lookup, the other key and the stored token survive. -/
theorem c9_revocation_frame_witness :
    validateToken (revokeAccountKey ⟨[], [⟨"key1", "acc1", "ed25519", "pk-a", 0, none⟩],
        [], [tokEx]⟩ 60 "key1") 50 "bearer-1"
      = validateToken ⟨[], [⟨"key1", "acc1", "ed25519", "pk-a", 0, none⟩], [], [tokEx]⟩
          50 "bearer-1" ∧
    (⟨"key1", "acc1", "ed25519", "pk-a", 0, some 60⟩ : AccountKey)
      ∈ (revokeAccountKey ⟨[], [⟨"key1", "acc1", "ed25519", "pk-a", 0, none⟩],
          [], [tokEx]⟩ 60 "key1").accountKeys := by
  constructor
  · exact (c9_revocation_frame ⟨[], [⟨"key1", "acc1", "ed25519", "pk-a", 0, none⟩],
      [], [tokEx]⟩ 60 "key1").2.2.2.1 50 "bearer-1"
  · exact (c9_revocation_frame ⟨[], [⟨"key1", "acc1", "ed25519", "pk-a", 0, none⟩],
      [], [tokEx]⟩ 60 "key1").2.2.2.2.2.2
      ⟨"key1", "acc1", "ed25519", "pk-a", 0, none⟩ (by decide) rfl

/-- State for C7: account `acc-b` owns a *revoked* key for `(ed25519,
pkEx)`, and a live challenge is waiting. A create-account request for the
same public key slips past the active-key conflict check (the lookup
skips revoked rows) and then hits the `UNIQUE(algorithm, public_key)`
constraint when inserting the key — after the account row was already
inserted. -/
def dbC7 : DB :=
  { accounts := [⟨"acc-b", "bob", "", "", 0⟩],
    accountKeys := [⟨"key-old", "acc-b", "ed25519", pkEx, 0, some 10⟩],
    challenges := [⟨"ch-7", "a1", "ed25519", "challenge-7", 100⟩],
    tokens := [] }

/-- Claim C7: The claim (and the spec's atomicity requirement) says a
failed key insertion must not leave the new account reachable. Evaluating
`CreateAccount` at the state `dbC7`: the request fails with
500 `failed to create account key`, yet the new account row `acc-new`
remains in the store with no key pointing at it — an orphaned,
`GetAccount`-reachable account. The code has no transaction and no
compensating delete, so the claim is right and the code is wrong. -/
theorem c7_orphan_account_on_key_insert_failure :
    (createAccountHandler cryptoTrue 50 60 ⟨"tok-7", "tok-str-7"⟩ "acc-new" "key-new"
        "a1" ⟨"alice", "", "", pkEx, "ed25519", "QQ==", "challenge-7"⟩ dbC7).1
      = .apiError 500 "failed to create account key"
    ∧ getAccount ((createAccountHandler cryptoTrue 50 60 ⟨"tok-7", "tok-str-7"⟩
        "acc-new" "key-new" "a1"
        ⟨"alice", "", "", pkEx, "ed25519", "QQ==", "challenge-7"⟩ dbC7).2) "acc-new"
      = some ⟨"acc-new", "alice", "", "", 50⟩
    ∧ ((createAccountHandler cryptoTrue 50 60 ⟨"tok-7", "tok-str-7"⟩ "acc-new" "key-new"
        "a1" ⟨"alice", "", "", pkEx, "ed25519", "QQ==", "challenge-7"⟩ dbC7).2).accountKeys.all
        (fun k => k.accountID != "acc-new") = true := by
  refine ⟨?_, ?_, ?_⟩ <;> decide

/-- Claim C8: Part one: on the authenticated owner path, a revoke request
whose target key is the key bound to the requesting bearer token fails
with 400 `cannot revoke the key currently in use` and leaves the store —
in particular the key's `revoked_at` — untouched. Part two: in every
outcome of the handler, the key record bound to the requesting token
survives unchanged, so the authenticating key is never revoked within its
own request. -/
theorem c8_self_revocation_rejected :
    (∀ (now : Nat) (bearer accountID keyID : String) (db : DB) (tok : Token)
        (key : AccountKey),
      accountID ≠ "" → keyID ≠ "" →
      handlerValidateToken db now bearer = some tok →
      tok.accountID = accountID →
      getAccountKey db keyID = some key →
      key.accountID = accountID →
      key.id = tok.keyID →
      deleteKeyHandler now bearer accountID keyID db
        = (.apiError 400 "cannot revoke the key currently in use", db))
    ∧ (∀ (now : Nat) (bearer accountID keyID : String) (db : DB) (tok : Token),
      handlerValidateToken db now bearer = some tok →
      ∀ k ∈ db.accountKeys, k.id = tok.keyID →
        k ∈ ((deleteKeyHandler now bearer accountID keyID db).2).accountKeys) := by
  constructor
  · intro now bearer accountID keyID db tok key hacc hkid hvt htokacc hkeyeq hkeyacc hself
    have h1 : (accountID == "" || keyID == "") = false := by
      simp only [Bool.or_eq_false_iff, beq_eq_false_iff_ne, ne_eq]
      exact ⟨hacc, hkid⟩
    have h2 : (tok.accountID != accountID) = false := by
      simp only [bne_eq_false_iff_eq]
      exact htokacc
    have h3 : (key.accountID != accountID) = false := by
      simp only [bne_eq_false_iff_eq]
      exact hkeyacc
    have h4 : (key.id == tok.keyID) = true := by
      simp only [beq_iff_eq]
      exact hself
    simp only [deleteKeyHandler, h1, hvt, hkeyeq, h2, h3, h4, Bool.false_eq_true,
      if_false, if_true]
  · intro now bearer accountID keyID db tok hvt k hk hkid2
    unfold deleteKeyHandler
    split
    · exact hk
    · split
      · exact hk
      · rename_i tok2 heq
        split
        · exact hk
        · split
          · exact hk
          · rename_i key hkeyeq
            split
            · exact hk
            split
            · exact hk
            · rename_i hne
              have htok2 : tok2 = tok := by
                rw [heq] at hvt
                exact Option.some.inj hvt
              have hkeyid : key.id = keyID := by
                have hp := List.find?_some
                  (show db.accountKeys.find? (fun k2 => k2.id == keyID) = some key
                    from hkeyeq)
                simpa only [beq_iff_eq] using hp
              refine mem_revoke_of_id_ne hk ?_ now
              intro hcontra
              apply hne
              simp only [beq_iff_eq]
              rw [hkeyid, ← hcontra, hkid2, htok2]

/-- Witness for C8: a token bound to `key1` of `acc1` tries to revoke
`key1` itself; the handler answers 400 and the store is unchanged. -/
theorem c8_self_revocation_rejected_witness :
    deleteKeyHandler 50 "bearer-1" "acc1" "key1"
        ⟨[], [⟨"key1", "acc1", "ed25519", "pk-a", 0, none⟩], [], [tokEx]⟩
      = (.apiError 400 "cannot revoke the key currently in use",
         ⟨[], [⟨"key1", "acc1", "ed25519", "pk-a", 0, none⟩], [], [tokEx]⟩) ∧
    (⟨"key1", "acc1", "ed25519", "pk-a", 0, none⟩ : AccountKey)
      ∈ ((deleteKeyHandler 50 "bearer-1" "acc1" "key2"
          ⟨[], [⟨"key1", "acc1", "ed25519", "pk-a", 0, none⟩], [], [tokEx]⟩).2).accountKeys := by
  constructor
  · exact c8_self_revocation_rejected.1 50 "bearer-1" "acc1" "key1"
      ⟨[], [⟨"key1", "acc1", "ed25519", "pk-a", 0, none⟩], [], [tokEx]⟩ tokEx
      ⟨"key1", "acc1", "ed25519", "pk-a", 0, none⟩
      (by decide) (by decide) (by decide) rfl (by decide) rfl rfl
  · exact c8_self_revocation_rejected.2 50 "bearer-1" "acc1" "key2"
      ⟨[], [⟨"key1", "acc1", "ed25519", "pk-a", 0, none⟩], [], [tokEx]⟩ tokEx
      (by decide) ⟨"key1", "acc1", "ed25519", "pk-a", 0, none⟩ (by decide) rfl

/-- Claim C1: For any valid `(agent_id, algorithm)` pair, `CreateChallenge`
followed immediately by `VerifyAndCreateToken` with a signature the
verifier accepts succeeds and issues a token; the issued state contains
no challenge row with the consumed challenge string (it was deleted at
the moment of successful verification), so a second
`VerifyAndCreateToken` with the same challenge string fails with
`ChallengeNotFound` and changes nothing. Freshness of the token
randomness (the `UNIQUE` columns of the tokens table) is a hypothesis,
as is a positive challenge TTL. -/
theorem c1_challenge_single_use (c : Crypto K) (now cttl tttl : Nat)
    (frCh frTok : Fresh) (agentID alg pk sig : String) (db0 db1 : DB) (ch : Challenge)
    (hcttl : 0 < cttl)
    (hcc : createChallenge now cttl frCh agentID alg db0 = (.ok ch, db1))
    (hsig : verifySignature c alg pk ch.challenge sig = .ok true)
    (hfr : db0.tokens.any (fun t => t.id == frTok.id || t.token == frTok.secret)
      = false) :
    ∃ tok db2,
      verifyAndCreateToken c now tttl frTok agentID alg pk ch.challenge sig db1
        = (.ok tok, db2)
      ∧ db2.challenges.all (fun c2 => c2.challenge != ch.challenge) = true
      ∧ verifyAndCreateToken c now tttl frTok agentID alg pk ch.challenge sig db2
        = (.error .challengeNotFound, db2) := by
  unfold createChallenge at hcc
  split at hcc
  · simp at hcc
  · split at hcc
    · simp at hcc
    · rename_i dbR hrow
      have hch : ch = ⟨frCh.id, agentID, alg, frCh.secret, now + cttl⟩ :=
        (Except.ok.inj (congrArg Prod.fst hcc)).symm
      have hdb1 : db1 = dbR := (congrArg Prod.snd hcc).symm
      subst hch
      subst hdb1
      have hgd := createChallengeRow_ok hrow
      have hchal1 : db1.challenges = db0.challenges
          ++ [⟨frCh.id, agentID, alg, frCh.secret, now + cttl⟩] := hgd.2.1
      have hnone0 : db0.challenges.find?
          (fun c2 => c2.challenge == frCh.secret && decide (now < c2.expiresAt))
          = none := by
        apply List.find?_eq_none.mpr
        intro c2 hc2 hpc
        have hng := any_eq_false_forall hgd.1 c2 hc2
        simp only [Bool.or_eq_false_iff, beq_eq_false_iff_ne] at hng
        simp only [Bool.and_eq_true, beq_iff_eq] at hpc
        exact hng.2 hpc.1
      have hget : getChallenge db1 now
          ((⟨frCh.id, agentID, alg, frCh.secret, now + cttl⟩ : Challenge)).challenge
          = some ⟨frCh.id, agentID, alg, frCh.secret, now + cttl⟩ := by
        show db1.challenges.find?
            (fun c2 => c2.challenge == frCh.secret && decide (now < c2.expiresAt))
          = some _
        rw [hchal1, find?_append_of_none hnone0]
        apply List.find?_cons_of_pos
        simp only [Bool.and_eq_true, beq_iff_eq, decide_eq_true_eq]
        exact ⟨trivial, by omega⟩
      obtain ⟨tok, db2, hco, hchal2⟩ :=
        verifyAndCreateToken_ok c now tttl frTok agentID alg pk sig db1
          ⟨frCh.id, agentID, alg, frCh.secret, now + cttl⟩
          hget (by simp) rfl rfl hsig
          (by
            show db1.tokens.any (fun t => t.id == frTok.id || t.token == frTok.secret)
              = false
            rw [hgd.2.2.2.1]
            exact hfr)
      have hall2 : db2.challenges.all (fun c2 => c2.challenge != frCh.secret)
          = true := by
        apply List.all_eq_true.mpr
        intro c2 hc2
        rw [hchal2] at hc2
        have hmem := List.mem_filter.mp hc2
        have hpred := hmem.2
        have hmem1 := hmem.1
        rw [hchal1] at hmem1
        rcases List.mem_append.mp hmem1 with hin0 | hinch
        · have hng := any_eq_false_forall hgd.1 c2 hin0
          simp only [Bool.or_eq_false_iff, beq_eq_false_iff_ne] at hng
          simp only [bne_iff_ne, ne_eq]
          exact hng.2
        · exfalso
          have hc2eq : c2 = ⟨frCh.id, agentID, alg, frCh.secret, now + cttl⟩ := by
            simpa using hinch
          rw [hc2eq] at hpred
          simp at hpred
      refine ⟨tok, db2, hco, hall2, ?_⟩
      have hnone2 : getChallenge db2 now frCh.secret = none := by
        apply List.find?_eq_none.mpr
        intro c2 hc2 hpc
        have := List.all_eq_true.mp hall2 c2 hc2
        simp only [bne_iff_ne, ne_eq] at this
        simp only [Bool.and_eq_true, beq_iff_eq] at hpc
        exact this hpc.1
      show verifyAndCreateToken c now tttl frTok agentID alg pk frCh.secret sig db2
        = (.error .challengeNotFound, db2)
      unfold verifyAndCreateToken
      rw [hnone2]

/-- Witness for C1 at a concrete run from the empty store: create a
challenge for `("a1", ed25519)`, verify it once successfully, and fail
with `ChallengeNotFound` the second time. -/
theorem c1_challenge_single_use_witness :
    ∃ tok db2,
      verifyAndCreateToken cryptoTrue 50 60 ⟨"t1", "tok-1"⟩ "a1" "ed25519" pkEx
          "rand-ch" "QQ=="
          (createChallenge 50 30 ⟨"c1", "rand-ch"⟩ "a1" "ed25519" emptyDB).2
        = (.ok tok, db2)
      ∧ db2.challenges.all (fun c2 => c2.challenge != "rand-ch") = true
      ∧ verifyAndCreateToken cryptoTrue 50 60 ⟨"t1", "tok-1"⟩ "a1" "ed25519" pkEx
          "rand-ch" "QQ==" db2
        = (.error .challengeNotFound, db2) :=
  c1_challenge_single_use cryptoTrue 50 30 60 ⟨"c1", "rand-ch"⟩ ⟨"t1", "tok-1"⟩
    "a1" "ed25519" pkEx "QQ==" emptyDB
    (createChallenge 50 30 ⟨"c1", "rand-ch"⟩ "a1" "ed25519" emptyDB).2
    ⟨"c1", "a1", "ed25519", "rand-ch", 80⟩
    (by decide) (by decide) (by decide) (by decide)

/-- Account, key, request and state fixtures for the C2 witness. -/
def acctA : Account := ⟨"acc1", "ann", "", "", 0⟩

def kA : AccountKey := ⟨"key1", "acc1", "ed25519", pkEx, 0, none⟩

def dbW : DB := ⟨[acctA], [kA], [chEx], [tokEx]⟩

def reqW : CreateAccountReq := ⟨"ann2", "", "", pkEx, "ed25519", "QQ==", "challenge-1"⟩

def reqAK : AddKeyReq := ⟨pkEx, "ed25519", "QQ==", "challenge-1"⟩

def tk2 : Token := ⟨"t2", "acc1", "key1", "a1", "tok-2", 110⟩

def dbW1 : DB := ⟨[acctA], [kA], [], [tokEx, tk2]⟩

def tk3 : Token := ⟨"t3", "acc1", "key1", "a1", "tok-3", 110⟩

def dbW3 : DB := ⟨[acctA], [kA], [], [tokEx, tk3]⟩

/-- Claim C2: Part one: after any sequence of `CreateAccount`,
`AddAccountKey`, `RevokeAccountKey` and `VerifyAndCreateToken` requests
starting from a state whose active keys are unique, no two account keys
with `revoked_at = null` share `(algorithm, public_key)` — every insert
passes the `UNIQUE(algorithm, public_key)` guard and revocation never
changes a key's pair. Parts two and three: once a pair is bound to an
active key, a later registration of the same pair — whether through
`CreateAccount` or through `AddAccountKey` — fails with 409 Conflict and
adds no key, so exactly the one registration already in the store
succeeded. -/
theorem c2_active_key_uniqueness :
    (∀ (K : Type) (c : Crypto K) (ops : List Op) (db : DB),
        ActiveUnique db.accountKeys → ActiveUnique ((execOps c ops db).accountKeys))
    ∧ (∀ (K : Type) (c : Crypto K) (now ttl : Nat) (frTok : Fresh)
        (accID keyID agentID : String) (req : CreateAccountReq) (db : DB)
        (tk : Token) (db1 : DB) (k : AccountKey),
        verifyAndCreateToken c now ttl frTok agentID req.algorithm req.publicKey
            req.challenge req.signature db = (.ok tk, db1) →
        getAccountKeyByPublicKey db req.algorithm req.publicKey = some k →
        createAccountCore c now ttl frTok accID keyID agentID req db
          = (.apiError 409 "public key is already registered to an account", db1)
        ∧ db1.accountKeys = db.accountKeys)
    ∧ (∀ (K : Type) (c : Crypto K) (now ttl : Nat) (frTok : Fresh)
        (keyID bearer accID : String) (req : AddKeyReq) (db : DB) (a : Account)
        (tok : Token) (tk : Token) (db1 : DB) (k : AccountKey),
        accID ≠ "" →
        getAccount db accID = some a →
        handlerValidateToken db now bearer = some tok →
        tok.accountID = accID →
        (req.publicKey == "" || req.algorithm == "" || req.signature == ""
          || req.challenge == "") = false →
        verifyAndCreateToken c now ttl frTok tok.agentID req.algorithm req.publicKey
            req.challenge req.signature db = (.ok tk, db1) →
        getAccountKeyByPublicKey db req.algorithm req.publicKey = some k →
        addKeyHandler c now ttl frTok keyID bearer accID req db
          = (.apiError 409 "public key is already registered", db1)
        ∧ db1.accountKeys = db.accountKeys) := by
  refine ⟨?_, ?_, ?_⟩
  · intro Kt c ops db h
    exact execOps_activeUnique c ops db h
  · intro Kt c now ttl frTok accID keyID agentID req db tk db1 k hver hkey
    have hf := (verifyAndCreateToken_frame c now ttl frTok agentID req.algorithm
      req.publicKey req.challenge req.signature db).1
    rw [hver] at hf
    have hf1 : db1.accountKeys = db.accountKeys := hf
    have hlook : getAccountKeyByPublicKey db1 req.algorithm req.publicKey = some k := by
      show findActiveKey db1.accountKeys req.algorithm req.publicKey = some k
      rw [hf1]
      exact hkey
    refine ⟨?_, hf1⟩
    simp only [createAccountCore, hver, hlook]
  · intro Kt c now ttl frTok keyID bearer accID req db a tok tk db1 k
      hacc hgetacc hvt htokacc hfields hver hkey
    have hf := (verifyAndCreateToken_frame c now ttl frTok tok.agentID req.algorithm
      req.publicKey req.challenge req.signature db).1
    rw [hver] at hf
    have hf1 : db1.accountKeys = db.accountKeys := hf
    have hlook : getAccountKeyByPublicKey db1 req.algorithm req.publicKey = some k := by
      show findActiveKey db1.accountKeys req.algorithm req.publicKey = some k
      rw [hf1]
      exact hkey
    have h0 : (accID == "") = false := beq_eq_false_iff_ne.mpr hacc
    have h2 : (tok.accountID != accID) = false := by
      simp only [bne_eq_false_iff_eq]
      exact htokacc
    refine ⟨?_, hf1⟩
    simp only [addKeyHandler, h0, hgetacc, hvt, h2, hfields, hver, hlook,
      Bool.false_eq_true, if_false]

/-- Witness for C2: a revocation request keeps the two-key invariant,
and both re-registrations of the already-bound `(ed25519, pkEx)` pair
answer 409 without touching the key table. -/
theorem c2_active_key_uniqueness_witness :
    ActiveUnique ((execOps cryptoTrue [.revokeKey 50 "bearer-1" "acc1" "key9"]
        dbW).accountKeys)
    ∧ createAccountCore cryptoTrue 50 60 ⟨"t2", "tok-2"⟩ "acc-x" "key-x" "a1" reqW dbW
        = (.apiError 409 "public key is already registered to an account", dbW1)
    ∧ addKeyHandler cryptoTrue 50 60 ⟨"t3", "tok-3"⟩ "key-y" "bearer-1" "acc1" reqAK dbW
        = (.apiError 409 "public key is already registered", dbW3) := by
  refine ⟨?_, ?_, ?_⟩
  · exact c2_active_key_uniqueness.1 Unit cryptoTrue
      [.revokeKey 50 "bearer-1" "acc1" "key9"] dbW (by decide)
  · exact (c2_active_key_uniqueness.2.1 Unit cryptoTrue 50 60 ⟨"t2", "tok-2"⟩
      "acc-x" "key-x" "a1" reqW dbW tk2 dbW1 kA (by decide) (by decide)).1
  · exact (c2_active_key_uniqueness.2.2 Unit cryptoTrue 50 60 ⟨"t3", "tok-3"⟩
      "key-y" "bearer-1" "acc1" reqAK dbW acctA tokEx tk3 dbW3 kA
      (by decide) (by decide) (by decide) (by decide) (by decide) (by decide)
      (by decide)).1

end Slashclaw
